import Mathlib

/-!
# Verification of the PA election-results pipeline

Shallow embedding of the data model and operations of the
PARealignmentMap scripts: the competitiveness classifiers
(`process_openelections.py`, `merge_official_2022_data.py`,
`merge_official_2024_data.py`), the county-level aggregation loop,
the output formatting, the canonical-dataset merger, and the
candidate-name normalizer.  Vote counts are Python `int`s, modelled
as `ℤ`; margin percentages are Python floats whose values in this
pipeline are exact decimals, modelled as `ℚ`.
-/

namespace PARealign

/-- A competitiveness bucket: the dict
`{category, party, code, color}` returned by every
`get_competitiveness` implementation. -/
structure Bucket where
  category : String
  party : String
  code : String
  color : String
deriving DecidableEq, Repr, Inhabited

/-- `get_competitiveness` from `src/scripts/process_openelections.py`
(lines 57-172): branches on `abs(margin_pct)` with strict `<`
thresholds, Democratic side when `margin_pct > 0`, Republican side
otherwise. -/
def get_competitiveness (margin_pct : ℚ) : Bucket :=
  if |margin_pct| < 1/2 then
    ⟨"Tossup", "Competitive", "TOSSUP", "#f7f7f7"⟩
  else if margin_pct > 0 then
    if |margin_pct| < 1 then
      ⟨"Tilt Democratic", "Democratic", "D_TILT", "#e1f5fe"⟩
    else if |margin_pct| < 11/2 then
      ⟨"Lean Democratic", "Democratic", "D_LEAN", "#c6dbef"⟩
    else if |margin_pct| < 10 then
      ⟨"Likely Democratic", "Democratic", "D_LIKELY", "#9ecae1"⟩
    else if |margin_pct| < 20 then
      ⟨"Safe Democratic", "Democratic", "D_SAFE", "#6baed6"⟩
    else if |margin_pct| < 30 then
      ⟨"Stronghold Democratic", "Democratic", "D_STRONGHOLD", "#3182bd"⟩
    else if |margin_pct| < 40 then
      ⟨"Dominant Democratic", "Democratic", "D_DOMINANT", "#08519c"⟩
    else
      ⟨"Annihilation Democratic", "Democratic", "D_ANNIHILATION", "#08306b"⟩
  else
    if |margin_pct| < 1 then
      ⟨"Tilt Republican", "Republican", "R_TILT", "#fee8c8"⟩
    else if |margin_pct| < 11/2 then
      ⟨"Lean Republican", "Republican", "R_LEAN", "#fcae91"⟩
    else if |margin_pct| < 10 then
      ⟨"Likely Republican", "Republican", "R_LIKELY", "#fb6a4a"⟩
    else if |margin_pct| < 20 then
      ⟨"Safe Republican", "Republican", "R_SAFE", "#ef3b2c"⟩
    else if |margin_pct| < 30 then
      ⟨"Stronghold Republican", "Republican", "R_STRONGHOLD", "#cb181d"⟩
    else if |margin_pct| < 40 then
      ⟨"Dominant Republican", "Republican", "R_DOMINANT", "#a50f15"⟩
    else
      ⟨"Annihilation Republican", "Republican", "R_ANNIHILATION", "#67000d"⟩

/-- `get_competitiveness` from `src/scripts/merge_official_2022_data.py`
(lines 13-47): a single descending `>=` / `>` threshold chain. -/
def get_competitiveness_2022 (margin_pct : ℚ) : Bucket :=
  if margin_pct ≥ 40 then
    ⟨"Annihilation Democratic", "Democratic", "D_ANNIHILATION", "#08306b"⟩
  else if margin_pct ≥ 30 then
    ⟨"Dominant Democratic", "Democratic", "D_DOMINANT", "#08519c"⟩
  else if margin_pct ≥ 20 then
    ⟨"Stronghold Democratic", "Democratic", "D_STRONGHOLD", "#3182bd"⟩
  else if margin_pct ≥ 10 then
    ⟨"Safe Democratic", "Democratic", "D_SAFE", "#6baed6"⟩
  else if margin_pct ≥ 11/2 then
    ⟨"Likely Democratic", "Democratic", "D_LIKELY", "#9ecae1"⟩
  else if margin_pct ≥ 1 then
    ⟨"Lean Democratic", "Democratic", "D_LEAN", "#c6dbef"⟩
  else if margin_pct ≥ 1/2 then
    ⟨"Tilt Democratic", "Democratic", "D_TILT", "#e1f5fe"⟩
  else if margin_pct > -1/2 then
    ⟨"Tossup", "Tossup", "TOSSUP", "#f7f7f7"⟩
  else if margin_pct > -1 then
    ⟨"Tilt Republican", "Republican", "R_TILT", "#fee8c8"⟩
  else if margin_pct > -11/2 then
    ⟨"Lean Republican", "Republican", "R_LEAN", "#fcae91"⟩
  else if margin_pct > -10 then
    ⟨"Likely Republican", "Republican", "R_LIKELY", "#fb6a4a"⟩
  else if margin_pct > -20 then
    ⟨"Safe Republican", "Republican", "R_SAFE", "#ef3b2c"⟩
  else if margin_pct > -30 then
    ⟨"Stronghold Republican", "Republican", "R_STRONGHOLD", "#cb181d"⟩
  else if margin_pct > -40 then
    ⟨"Dominant Republican", "Republican", "R_DOMINANT", "#a50f15"⟩
  else
    ⟨"Annihilation Republican", "Republican", "R_ANNIHILATION", "#67000d"⟩

/-- The threshold table of `get_competitiveness` in
`src/scripts/merge_official_2024_data.py` (lines 13-25), minus the
final `float('-inf')` row, which the recursion's fallback plays
(the fallback bucket at lines 36-41 is identical to that row). -/
def categories2024 : List (ℚ × Bucket) :=
  [ (40, ⟨"Annihilation", "Democratic", "D_ANNIHILATION", "#08519c"⟩),
    (20, ⟨"Dominant", "Democratic", "D_DOMINANT", "#3182bd"⟩),
    (10, ⟨"Safe", "Democratic", "D_SAFE", "#6baed6"⟩),
    (5, ⟨"Likely", "Democratic", "D_LIKELY", "#9ecae1"⟩),
    (2, ⟨"Lean", "Democratic", "D_LEAN", "#c6dbef"⟩),
    (-2, ⟨"Tossup", "Tossup", "TOSSUP", "#f7f7f7"⟩),
    (-5, ⟨"Lean", "Republican", "R_LEAN", "#fee5d9"⟩),
    (-10, ⟨"Likely", "Republican", "R_LIKELY", "#fcae91"⟩),
    (-20, ⟨"Safe", "Republican", "R_SAFE", "#fb6a4a"⟩),
    (-40, ⟨"Dominant", "Republican", "R_DOMINANT", "#cb181d"⟩) ]

/-- The first-match scan of `get_competitiveness` in
`merge_official_2024_data.py` (lines 27-41): return the bucket of the
first threshold with `margin_pct > threshold`, else the
`R_ANNIHILATION` fallback. -/
def scan2024 (margin_pct : ℚ) : List (ℚ × Bucket) → Bucket
  | [] => ⟨"Annihilation", "Republican", "R_ANNIHILATION", "#67000d"⟩
  | (threshold, b) :: rest =>
      if margin_pct > threshold then b else scan2024 margin_pct rest

/-- `get_competitiveness` from `src/scripts/merge_official_2024_data.py`
(lines 11-41). -/
def get_competitiveness_2024 (margin_pct : ℚ) : Bucket :=
  scan2024 margin_pct categories2024

/-- The fixed bucket table of `get_competitiveness` in
`process_openelections.py`, listed Tossup first, then the Democratic
fan, then the Republican fan (index 0 to 14). -/
def poeTable : List Bucket :=
  [ ⟨"Tossup", "Competitive", "TOSSUP", "#f7f7f7"⟩,
    ⟨"Tilt Democratic", "Democratic", "D_TILT", "#e1f5fe"⟩,
    ⟨"Lean Democratic", "Democratic", "D_LEAN", "#c6dbef"⟩,
    ⟨"Likely Democratic", "Democratic", "D_LIKELY", "#9ecae1"⟩,
    ⟨"Safe Democratic", "Democratic", "D_SAFE", "#6baed6"⟩,
    ⟨"Stronghold Democratic", "Democratic", "D_STRONGHOLD", "#3182bd"⟩,
    ⟨"Dominant Democratic", "Democratic", "D_DOMINANT", "#08519c"⟩,
    ⟨"Annihilation Democratic", "Democratic", "D_ANNIHILATION", "#08306b"⟩,
    ⟨"Tilt Republican", "Republican", "R_TILT", "#fee8c8"⟩,
    ⟨"Lean Republican", "Republican", "R_LEAN", "#fcae91"⟩,
    ⟨"Likely Republican", "Republican", "R_LIKELY", "#fb6a4a"⟩,
    ⟨"Safe Republican", "Republican", "R_SAFE", "#ef3b2c"⟩,
    ⟨"Stronghold Republican", "Republican", "R_STRONGHOLD", "#cb181d"⟩,
    ⟨"Dominant Republican", "Republican", "R_DOMINANT", "#a50f15"⟩,
    ⟨"Annihilation Republican", "Republican", "R_ANNIHILATION", "#67000d"⟩ ]

/-- The margin interval effectively owned by bucket `i` of `poeTable`:
the region of the real (here rational) line on which the branch chain
of `get_competitiveness` selects that bucket.  Half-open towards the
outer bucket on the Democratic side, half-open towards the inner
bucket on the Republican side, exactly as the strict `<` comparisons
on `abs(margin_pct)` dictate. -/
def memInterval : ℕ → ℚ → Prop
  | 0, q => -1/2 < q ∧ q < 1/2
  | 1, q => 1/2 ≤ q ∧ q < 1
  | 2, q => 1 ≤ q ∧ q < 11/2
  | 3, q => 11/2 ≤ q ∧ q < 10
  | 4, q => 10 ≤ q ∧ q < 20
  | 5, q => 20 ≤ q ∧ q < 30
  | 6, q => 30 ≤ q ∧ q < 40
  | 7, q => 40 ≤ q
  | 8, q => -1 < q ∧ q ≤ -1/2
  | 9, q => -11/2 < q ∧ q ≤ -1
  | 10, q => -10 < q ∧ q ≤ -11/2
  | 11, q => -20 < q ∧ q ≤ -10
  | 12, q => -30 < q ∧ q ≤ -20
  | 13, q => -40 < q ∧ q ≤ -30
  | 14, q => q ≤ -40
  | _ + 15, _ => False

/-- Index into `poeTable` selected by the branch chain of
`get_competitiveness`; same `if` structure as the source function. -/
def classifyIndex (margin_pct : ℚ) : ℕ :=
  if |margin_pct| < 1/2 then 0
  else if margin_pct > 0 then
    if |margin_pct| < 1 then 1
    else if |margin_pct| < 11/2 then 2
    else if |margin_pct| < 10 then 3
    else if |margin_pct| < 20 then 4
    else if |margin_pct| < 30 then 5
    else if |margin_pct| < 40 then 6
    else 7
  else
    if |margin_pct| < 1 then 8
    else if |margin_pct| < 11/2 then 9
    else if |margin_pct| < 10 then 10
    else if |margin_pct| < 20 then 11
    else if |margin_pct| < 30 then 12
    else if |margin_pct| < 40 then 13
    else 14

lemma memInterval_lt_15 {i : ℕ} {q : ℚ} (h : memInterval i q) : i < 15 := by
  by_contra hge
  push_neg at hge
  obtain ⟨k, rfl⟩ := Nat.exists_eq_add_of_le hge
  rw [Nat.add_comm] at h
  exact h

lemma classifyIndex_lt_15 (q : ℚ) : classifyIndex q < 15 := by
  unfold classifyIndex
  split_ifs <;> omega

set_option maxHeartbeats 1600000 in
lemma memInterval_classifyIndex (q : ℚ) : memInterval (classifyIndex q) q := by
  rcases le_or_lt 0 q with hq | hq
  · simp only [classifyIndex, abs_of_nonneg hq]
    split_ifs <;>
      first
        | (exact ⟨by linarith, by linarith⟩)
        | (simp only [memInterval]; linarith)
  · simp only [classifyIndex, abs_of_neg hq]
    split_ifs <;>
      first
        | (exact ⟨by linarith, by linarith⟩)
        | (simp only [memInterval]; linarith)

lemma memInterval_unique {i : ℕ} {q : ℚ} (h : memInterval i q) :
    i = classifyIndex q := by
  have hlt : i < 15 := memInterval_lt_15 h
  interval_cases i <;> simp only [memInterval] at h
  · rw [classifyIndex, if_pos (abs_lt.mpr (by constructor <;> linarith [h.1, h.2]))]
  · obtain ⟨h1, h2⟩ := h
    rw [classifyIndex, abs_of_nonneg (by linarith), if_neg (not_lt.mpr (by linarith)),
      if_pos (by linarith : q > 0), if_pos h2]
  · obtain ⟨h1, h2⟩ := h
    rw [classifyIndex, abs_of_nonneg (by linarith), if_neg (not_lt.mpr (by linarith)),
      if_pos (by linarith : q > 0), if_neg (not_lt.mpr (by linarith)), if_pos h2]
  · obtain ⟨h1, h2⟩ := h
    rw [classifyIndex, abs_of_nonneg (by linarith), if_neg (not_lt.mpr (by linarith)),
      if_pos (by linarith : q > 0), if_neg (not_lt.mpr (by linarith)),
      if_neg (not_lt.mpr (by linarith)), if_pos h2]
  · obtain ⟨h1, h2⟩ := h
    rw [classifyIndex, abs_of_nonneg (by linarith), if_neg (not_lt.mpr (by linarith)),
      if_pos (by linarith : q > 0), if_neg (not_lt.mpr (by linarith)),
      if_neg (not_lt.mpr (by linarith)), if_neg (not_lt.mpr (by linarith)), if_pos h2]
  · obtain ⟨h1, h2⟩ := h
    rw [classifyIndex, abs_of_nonneg (by linarith), if_neg (not_lt.mpr (by linarith)),
      if_pos (by linarith : q > 0), if_neg (not_lt.mpr (by linarith)),
      if_neg (not_lt.mpr (by linarith)), if_neg (not_lt.mpr (by linarith)),
      if_neg (not_lt.mpr (by linarith)), if_pos h2]
  · obtain ⟨h1, h2⟩ := h
    rw [classifyIndex, abs_of_nonneg (by linarith), if_neg (not_lt.mpr (by linarith)),
      if_pos (by linarith : q > 0), if_neg (not_lt.mpr (by linarith)),
      if_neg (not_lt.mpr (by linarith)), if_neg (not_lt.mpr (by linarith)),
      if_neg (not_lt.mpr (by linarith)), if_neg (not_lt.mpr (by linarith)), if_pos h2]
  · rw [classifyIndex, abs_of_nonneg (by linarith), if_neg (not_lt.mpr (by linarith)),
      if_pos (by linarith : q > 0), if_neg (not_lt.mpr (by linarith)),
      if_neg (not_lt.mpr (by linarith)), if_neg (not_lt.mpr (by linarith)),
      if_neg (not_lt.mpr (by linarith)), if_neg (not_lt.mpr (by linarith)),
      if_neg (not_lt.mpr (by linarith))]
  · obtain ⟨h1, h2⟩ := h
    rw [classifyIndex, abs_of_nonpos (by linarith), if_neg (not_lt.mpr (by linarith)),
      if_neg (not_lt.mpr (by linarith)), if_pos (by linarith : -q < 1)]
  · obtain ⟨h1, h2⟩ := h
    rw [classifyIndex, abs_of_nonpos (by linarith), if_neg (not_lt.mpr (by linarith)),
      if_neg (not_lt.mpr (by linarith)), if_neg (not_lt.mpr (by linarith)),
      if_pos (by linarith : -q < 11/2)]
  · obtain ⟨h1, h2⟩ := h
    rw [classifyIndex, abs_of_nonpos (by linarith), if_neg (not_lt.mpr (by linarith)),
      if_neg (not_lt.mpr (by linarith)), if_neg (not_lt.mpr (by linarith)),
      if_neg (not_lt.mpr (by linarith)), if_pos (by linarith : -q < 10)]
  · obtain ⟨h1, h2⟩ := h
    rw [classifyIndex, abs_of_nonpos (by linarith), if_neg (not_lt.mpr (by linarith)),
      if_neg (not_lt.mpr (by linarith)), if_neg (not_lt.mpr (by linarith)),
      if_neg (not_lt.mpr (by linarith)), if_neg (not_lt.mpr (by linarith)),
      if_pos (by linarith : -q < 20)]
  · obtain ⟨h1, h2⟩ := h
    rw [classifyIndex, abs_of_nonpos (by linarith), if_neg (not_lt.mpr (by linarith)),
      if_neg (not_lt.mpr (by linarith)), if_neg (not_lt.mpr (by linarith)),
      if_neg (not_lt.mpr (by linarith)), if_neg (not_lt.mpr (by linarith)),
      if_neg (not_lt.mpr (by linarith)), if_pos (by linarith : -q < 30)]
  · obtain ⟨h1, h2⟩ := h
    rw [classifyIndex, abs_of_nonpos (by linarith), if_neg (not_lt.mpr (by linarith)),
      if_neg (not_lt.mpr (by linarith)), if_neg (not_lt.mpr (by linarith)),
      if_neg (not_lt.mpr (by linarith)), if_neg (not_lt.mpr (by linarith)),
      if_neg (not_lt.mpr (by linarith)), if_neg (not_lt.mpr (by linarith)),
      if_pos (by linarith : -q < 40)]
  · rw [classifyIndex, abs_of_nonpos (by linarith), if_neg (not_lt.mpr (by linarith)),
      if_neg (not_lt.mpr (by linarith)), if_neg (not_lt.mpr (by linarith)),
      if_neg (not_lt.mpr (by linarith)), if_neg (not_lt.mpr (by linarith)),
      if_neg (not_lt.mpr (by linarith)), if_neg (not_lt.mpr (by linarith)),
      if_neg (not_lt.mpr (by linarith))]

lemma get_competitiveness_eq_table (q : ℚ) :
    get_competitiveness q = poeTable.getD (classifyIndex q) default := by
  unfold get_competitiveness classifyIndex
  split_ifs <;> rfl

/-- The bucket table of `get_competitiveness` in
`merge_official_2022_data.py`, listed in the same index order as
`poeTable` (the source lists it outside-in; only the Tossup bucket's
`party` field differs from `poeTable`). -/
def table2022 : List Bucket :=
  [ ⟨"Tossup", "Tossup", "TOSSUP", "#f7f7f7"⟩,
    ⟨"Tilt Democratic", "Democratic", "D_TILT", "#e1f5fe"⟩,
    ⟨"Lean Democratic", "Democratic", "D_LEAN", "#c6dbef"⟩,
    ⟨"Likely Democratic", "Democratic", "D_LIKELY", "#9ecae1"⟩,
    ⟨"Safe Democratic", "Democratic", "D_SAFE", "#6baed6"⟩,
    ⟨"Stronghold Democratic", "Democratic", "D_STRONGHOLD", "#3182bd"⟩,
    ⟨"Dominant Democratic", "Democratic", "D_DOMINANT", "#08519c"⟩,
    ⟨"Annihilation Democratic", "Democratic", "D_ANNIHILATION", "#08306b"⟩,
    ⟨"Tilt Republican", "Republican", "R_TILT", "#fee8c8"⟩,
    ⟨"Lean Republican", "Republican", "R_LEAN", "#fcae91"⟩,
    ⟨"Likely Republican", "Republican", "R_LIKELY", "#fb6a4a"⟩,
    ⟨"Safe Republican", "Republican", "R_SAFE", "#ef3b2c"⟩,
    ⟨"Stronghold Republican", "Republican", "R_STRONGHOLD", "#cb181d"⟩,
    ⟨"Dominant Republican", "Republican", "R_DOMINANT", "#a50f15"⟩,
    ⟨"Annihilation Republican", "Republican", "R_ANNIHILATION", "#67000d"⟩ ]

lemma get_competitiveness_2022_eq_table {i : ℕ} {q : ℚ} (h : memInterval i q) :
    get_competitiveness_2022 q = table2022.getD i default := by
  have hlt : i < 15 := memInterval_lt_15 h
  interval_cases i <;> simp only [memInterval] at h
  · obtain ⟨h1, h2⟩ := h
    rw [get_competitiveness_2022, if_neg (not_le.mpr (by linarith)),
      if_neg (not_le.mpr (by linarith)), if_neg (not_le.mpr (by linarith)),
      if_neg (not_le.mpr (by linarith)), if_neg (not_le.mpr (by linarith)),
      if_neg (not_le.mpr (by linarith)), if_neg (not_le.mpr (by linarith)),
      if_pos (by linarith : q > -1/2)]
    rfl
  · obtain ⟨h1, h2⟩ := h
    rw [get_competitiveness_2022, if_neg (not_le.mpr (by linarith)),
      if_neg (not_le.mpr (by linarith)), if_neg (not_le.mpr (by linarith)),
      if_neg (not_le.mpr (by linarith)), if_neg (not_le.mpr (by linarith)),
      if_neg (not_le.mpr (by linarith)), if_pos (by linarith : q ≥ 1/2)]
    rfl
  · obtain ⟨h1, h2⟩ := h
    rw [get_competitiveness_2022, if_neg (not_le.mpr (by linarith)),
      if_neg (not_le.mpr (by linarith)), if_neg (not_le.mpr (by linarith)),
      if_neg (not_le.mpr (by linarith)), if_neg (not_le.mpr (by linarith)),
      if_pos (by linarith : q ≥ 1)]
    rfl
  · obtain ⟨h1, h2⟩ := h
    rw [get_competitiveness_2022, if_neg (not_le.mpr (by linarith)),
      if_neg (not_le.mpr (by linarith)), if_neg (not_le.mpr (by linarith)),
      if_neg (not_le.mpr (by linarith)), if_pos (by linarith : q ≥ 11/2)]
    rfl
  · obtain ⟨h1, h2⟩ := h
    rw [get_competitiveness_2022, if_neg (not_le.mpr (by linarith)),
      if_neg (not_le.mpr (by linarith)), if_neg (not_le.mpr (by linarith)),
      if_pos (by linarith : q ≥ 10)]
    rfl
  · obtain ⟨h1, h2⟩ := h
    rw [get_competitiveness_2022, if_neg (not_le.mpr (by linarith)),
      if_neg (not_le.mpr (by linarith)), if_pos (by linarith : q ≥ 20)]
    rfl
  · obtain ⟨h1, h2⟩ := h
    rw [get_competitiveness_2022, if_neg (not_le.mpr (by linarith)),
      if_pos (by linarith : q ≥ 30)]
    rfl
  · rw [get_competitiveness_2022, if_pos (by linarith : q ≥ 40)]
    rfl
  · obtain ⟨h1, h2⟩ := h
    rw [get_competitiveness_2022, if_neg (not_le.mpr (by linarith)),
      if_neg (not_le.mpr (by linarith)), if_neg (not_le.mpr (by linarith)),
      if_neg (not_le.mpr (by linarith)), if_neg (not_le.mpr (by linarith)),
      if_neg (not_le.mpr (by linarith)), if_neg (not_le.mpr (by linarith)),
      if_neg (not_lt.mpr (by linarith)), if_pos (by linarith : q > -1)]
    rfl
  · obtain ⟨h1, h2⟩ := h
    rw [get_competitiveness_2022, if_neg (not_le.mpr (by linarith)),
      if_neg (not_le.mpr (by linarith)), if_neg (not_le.mpr (by linarith)),
      if_neg (not_le.mpr (by linarith)), if_neg (not_le.mpr (by linarith)),
      if_neg (not_le.mpr (by linarith)), if_neg (not_le.mpr (by linarith)),
      if_neg (not_lt.mpr (by linarith)), if_neg (not_lt.mpr (by linarith)),
      if_pos (by linarith : q > -11/2)]
    rfl
  · obtain ⟨h1, h2⟩ := h
    rw [get_competitiveness_2022, if_neg (not_le.mpr (by linarith)),
      if_neg (not_le.mpr (by linarith)), if_neg (not_le.mpr (by linarith)),
      if_neg (not_le.mpr (by linarith)), if_neg (not_le.mpr (by linarith)),
      if_neg (not_le.mpr (by linarith)), if_neg (not_le.mpr (by linarith)),
      if_neg (not_lt.mpr (by linarith)), if_neg (not_lt.mpr (by linarith)),
      if_neg (not_lt.mpr (by linarith)), if_pos (by linarith : q > -10)]
    rfl
  · obtain ⟨h1, h2⟩ := h
    rw [get_competitiveness_2022, if_neg (not_le.mpr (by linarith)),
      if_neg (not_le.mpr (by linarith)), if_neg (not_le.mpr (by linarith)),
      if_neg (not_le.mpr (by linarith)), if_neg (not_le.mpr (by linarith)),
      if_neg (not_le.mpr (by linarith)), if_neg (not_le.mpr (by linarith)),
      if_neg (not_lt.mpr (by linarith)), if_neg (not_lt.mpr (by linarith)),
      if_neg (not_lt.mpr (by linarith)), if_neg (not_lt.mpr (by linarith)),
      if_pos (by linarith : q > -20)]
    rfl
  · obtain ⟨h1, h2⟩ := h
    rw [get_competitiveness_2022, if_neg (not_le.mpr (by linarith)),
      if_neg (not_le.mpr (by linarith)), if_neg (not_le.mpr (by linarith)),
      if_neg (not_le.mpr (by linarith)), if_neg (not_le.mpr (by linarith)),
      if_neg (not_le.mpr (by linarith)), if_neg (not_le.mpr (by linarith)),
      if_neg (not_lt.mpr (by linarith)), if_neg (not_lt.mpr (by linarith)),
      if_neg (not_lt.mpr (by linarith)), if_neg (not_lt.mpr (by linarith)),
      if_neg (not_lt.mpr (by linarith)), if_pos (by linarith : q > -30)]
    rfl
  · obtain ⟨h1, h2⟩ := h
    rw [get_competitiveness_2022, if_neg (not_le.mpr (by linarith)),
      if_neg (not_le.mpr (by linarith)), if_neg (not_le.mpr (by linarith)),
      if_neg (not_le.mpr (by linarith)), if_neg (not_le.mpr (by linarith)),
      if_neg (not_le.mpr (by linarith)), if_neg (not_le.mpr (by linarith)),
      if_neg (not_lt.mpr (by linarith)), if_neg (not_lt.mpr (by linarith)),
      if_neg (not_lt.mpr (by linarith)), if_neg (not_lt.mpr (by linarith)),
      if_neg (not_lt.mpr (by linarith)), if_neg (not_lt.mpr (by linarith)),
      if_pos (by linarith : q > -40)]
    rfl
  · rw [get_competitiveness_2022, if_neg (not_le.mpr (by linarith)),
      if_neg (not_le.mpr (by linarith)), if_neg (not_le.mpr (by linarith)),
      if_neg (not_le.mpr (by linarith)), if_neg (not_le.mpr (by linarith)),
      if_neg (not_le.mpr (by linarith)), if_neg (not_le.mpr (by linarith)),
      if_neg (not_lt.mpr (by linarith)), if_neg (not_lt.mpr (by linarith)),
      if_neg (not_lt.mpr (by linarith)), if_neg (not_lt.mpr (by linarith)),
      if_neg (not_lt.mpr (by linarith)), if_neg (not_lt.mpr (by linarith)),
      if_neg (not_lt.mpr (by linarith))]
    rfl

/-- C5: `get_competitiveness` is a pure total function on the whole
(rational) line: every `margin_pct` lies in exactly one of the 15
bucket intervals, and the function returns precisely the bucket of
that interval from the fixed table `poeTable`. -/
theorem get_competitiveness_total_partition (q : ℚ) :
    ∃ i : ℕ, i < 15 ∧ memInterval i q ∧
      get_competitiveness q = poeTable.getD i default ∧
      ∀ j : ℕ, memInterval j q → j = i :=
  ⟨classifyIndex q, classifyIndex_lt_15 q, memInterval_classifyIndex q,
    get_competitiveness_eq_table q, fun _ h => memInterval_unique h⟩

/-- C1 counterexample: a `margin_pct` exactly on a bucket boundary
falls in the LESS competitive (outer) bucket, not the inner one
claimed: `get_competitiveness 5.5` is Likely (not Lean) Democratic
and `get_competitiveness (-10)` is Safe (not Likely) Republican. -/
theorem boundary_margin_counterexample :
    (get_competitiveness (11/2)).category = "Likely Democratic" ∧
    (get_competitiveness (11/2)).category ≠ "Lean Democratic" ∧
    (get_competitiveness (-10)).category = "Safe Republican" ∧
    (get_competitiveness (-10)).category ≠ "Likely Republican" := by
  refine ⟨?_, ?_, ?_, ?_⟩ <;>
    norm_num [get_competitiveness, abs_of_nonneg, abs_of_nonpos] <;> decide

/-- C1 amended: both classifiers apply their boundaries exactly, with
the tie-break that a `margin_pct` exactly equal to a boundary belongs
to the less competitive (outer) bucket, consistently in
`process_openelections.py` and `merge_official_2022_data.py`. -/
theorem boundary_margin_outer_bucket :
    (get_competitiveness (1/2)).category = "Tilt Democratic" ∧
    (get_competitiveness 1).category = "Lean Democratic" ∧
    (get_competitiveness (11/2)).category = "Likely Democratic" ∧
    (get_competitiveness 10).category = "Safe Democratic" ∧
    (get_competitiveness 20).category = "Stronghold Democratic" ∧
    (get_competitiveness (-11/2)).category = "Likely Republican" ∧
    (get_competitiveness (-10)).category = "Safe Republican" ∧
    (get_competitiveness_2022 (1/2)).category = "Tilt Democratic" ∧
    (get_competitiveness_2022 1).category = "Lean Democratic" ∧
    (get_competitiveness_2022 (11/2)).category = "Likely Democratic" ∧
    (get_competitiveness_2022 10).category = "Safe Democratic" ∧
    (get_competitiveness_2022 20).category = "Stronghold Democratic" ∧
    (get_competitiveness_2022 (-11/2)).category = "Likely Republican" ∧
    (get_competitiveness_2022 (-10)).category = "Safe Republican" := by
  refine ⟨?_, ?_, ?_, ?_, ?_, ?_, ?_, ?_, ?_, ?_, ?_, ?_, ?_, ?_⟩ <;>
    norm_num [get_competitiveness, get_competitiveness_2022,
      abs_of_nonneg, abs_of_nonpos]

/-- C4 counterexample: the three `get_competitiveness`
implementations are not one fixed mapping: at `margin_pct = 0` the
`process_openelections.py` and `merge_official_2022_data.py` versions
disagree on the Tossup bucket's `party` field, and at
`margin_pct = 3` the `merge_official_2024_data.py` version returns a
different bucket from the other two. -/
theorem classifier_disagreement_counterexample :
    get_competitiveness 0 ≠ get_competitiveness_2022 0 ∧
    get_competitiveness 3 ≠ get_competitiveness_2024 3 ∧
    get_competitiveness_2022 3 ≠ get_competitiveness_2024 3 := by
  refine ⟨?_, ?_, ?_⟩ <;>
    norm_num [get_competitiveness, get_competitiveness_2022,
      get_competitiveness_2024, scan2024, categories2024,
      abs_of_nonneg, abs_of_nonpos, Bucket.mk.injEq] <;> decide

/-- C4 amended: the `process_openelections.py` and
`merge_official_2022_data.py` classifiers agree on `category`, `code`
and `color` for every `margin_pct` (their only difference is the
`party` field of the Tossup bucket); the
`merge_official_2024_data.py` classifier is a different mapping. -/
theorem classifier_2022_agreement (q : ℚ) :
    (get_competitiveness q).category = (get_competitiveness_2022 q).category ∧
    (get_competitiveness q).code = (get_competitiveness_2022 q).code ∧
    (get_competitiveness q).color = (get_competitiveness_2022 q).color := by
  rw [get_competitiveness_eq_table q,
    get_competitiveness_2022_eq_table (memInterval_classifyIndex q)]
  have hlt := classifyIndex_lt_15 q
  generalize classifyIndex q = i at hlt ⊢
  interval_cases i <;> exact ⟨rfl, rfl, rfl⟩

/-! ## Python string primitives

The normalizers operate on Python `str` values; we model them over
`List Char` (the inputs in this repository are ASCII).  Python `NaN`
cell values, which every normalizer maps to `""`, are modelled as the
empty string. -/

/-- Python `str.strip()`: drop leading and trailing whitespace. -/
def pyStrip (s : List Char) : List Char :=
  ((s.dropWhile Char.isWhitespace).reverse.dropWhile Char.isWhitespace).reverse

/-- Worker for `pySplitWs`, accumulating the current word reversed. -/
def pySplitWsGo (cur : List Char) : List Char → List (List Char)
  | [] => if cur = [] then [] else [cur.reverse]
  | c :: cs =>
      if c.isWhitespace then
        if cur = [] then pySplitWsGo [] cs else cur.reverse :: pySplitWsGo [] cs
      else
        pySplitWsGo (c :: cur) cs

/-- Python `str.split()` with no argument: split on whitespace runs,
producing no empty words. -/
def pySplitWs (s : List Char) : List (List Char) :=
  pySplitWsGo [] s

/-- Worker for `pyTitle`: the flag records whether the previous
character was cased (alphabetic). -/
def pyTitleGo : Bool → List Char → List Char
  | _, [] => []
  | prevAlpha, c :: cs =>
      if c.isAlpha then
        (if prevAlpha then c.toLower else c.toUpper) :: pyTitleGo true cs
      else
        c :: pyTitleGo false cs

/-- Python `str.title()`: uppercase each cased character that follows
a non-cased character, lowercase the rest. -/
def pyTitle (s : List Char) : List Char :=
  pyTitleGo false s

/-- A regex word character (`\w`): `[A-Za-z0-9_]`. -/
def isWordChar (c : Char) : Bool :=
  c.isAlphanum || c = '_'

/-- Whether a regex word boundary `\b` sits after `prev` (`none` is
the start of the string). -/
def atBoundary : Option Char → Bool
  | none => true
  | some p => !isWordChar p

/-- One pass of `re.sub(r"\b([A-Z])\b(?!\.)", r"\1.", name)` from
`normalize_candidate_name`: append a period to a standalone capital
letter not already followed by a period; `prev` is the character
before the current position in the original string. -/
def addInitialPeriods : Option Char → List Char → List Char
  | _, [] => []
  | prev, c :: cs =>
      let after := match cs with
        | [] => true
        | d :: _ => !isWordChar d && d ≠ '.'
      if c.isUpper && atBoundary prev && after then
        c :: '.' :: addInitialPeriods (some c) cs
      else
        c :: addInitialPeriods (some c) cs

/-- `re.sub(r"\bMc([a-z])", lambda m: "Mc" + m.group(1).upper(), name)`
(and the analogous `De` rule), generalized over the two prefix
characters: at a word boundary, `a` then `b` then a lowercase letter
has that letter uppercased; scanning resumes after the match. -/
def fixPrefixCap (a b : Char) : Option Char → List Char → List Char
  | prev, c :: d :: l :: rest =>
      if c = a ∧ d = b ∧ l.isLower ∧ atBoundary prev then
        c :: d :: l.toUpper :: fixPrefixCap a b (some l) rest
      else
        c :: fixPrefixCap a b (some c) (d :: l :: rest)
  | _, c :: cs => c :: fixPrefixCap a b (some c) cs
  | _, [] => []

/-- Length (1 or 3) of the running-mate separator `/ | and | &` of
`re.split(r"\s*(?:/|and|&)\s*", ...)` when one starts at the head of
the list (the `and` alternative is case-insensitive and needs no word
boundary). -/
def sepLenAt : List Char → Option ℕ
  | '/' :: _ => some 1
  | '&' :: _ => some 1
  | a :: n :: d :: _ =>
      if a.toLower = 'a' ∧ n.toLower = 'n' ∧ d.toLower = 'd' then some 3 else none
  | _ => none

/-- First segment of
`re.split(r"\s*(?:/|and|&)\s*", name, flags=IGNORECASE, maxsplit=1)`:
everything before the leftmost separator occurrence, with the
whitespace swallowed by the pattern's leading `\s*` removed. -/
def splitRunningMate (s : List Char) : List Char :=
  match (List.range s.length).find? (fun j => (sepLenAt (s.drop j)).isSome) with
  | none => s
  | some j => ((s.take j).reverse.dropWhile Char.isWhitespace).reverse

/-- The `suffix_map` of `normalize_candidate_name`
(`process_openelections.py` lines 197-204). -/
def suffixCanon (w : List Char) : Option (List Char) :=
  if w = "Jr".toList then some "Jr.".toList
  else if w = "Sr".toList then some "Sr.".toList
  else if w = "Ii".toList then some "II".toList
  else if w = "Iii".toList then some "III".toList
  else if w = "Iv".toList then some "IV".toList
  else if w = "V".toList then some "V".toList
  else none

/-- `normalize_candidate_name` from `process_openelections.py`
(lines 174-210): strip, cut the running mate for President/Governor,
collapse whitespace, title-case, dot standalone initials, fix `Mc`
and `De` capitalization, canonicalize a suffix token. -/
def normalize_candidate_name (candidate office_name : String) : String :=
  if candidate = "" then "" else
  let name := pyStrip candidate.toList
  if name = [] then "" else
  let name :=
    if office_name = "President" ∨ office_name = "Governor" then
      splitRunningMate name
    else name
  let name := List.intercalate [' '] (pySplitWs name)
  let name := pyTitle name
  let name := addInitialPeriods none name
  let name := fixPrefixCap 'M' 'c' none name
  let name := fixPrefixCap 'D' 'e' none name
  let parts := pySplitWs name
  let name :=
    match parts.getLast? with
    | some lastPart =>
        match suffixCanon lastPart with
        | some rep => List.intercalate [' '] (parts.dropLast ++ [rep])
        | none => name
    | none => name
  String.mk name

/-- `normalize_county_name` from `process_openelections.py`
(lines 212-222): delete every `" County"` occurrence, strip, collapse
whitespace, title-case, fix `Mc` capitalization. -/
def removeCountySuffix : List Char → List Char
  | ' ' :: 'C' :: 'o' :: 'u' :: 'n' :: 't' :: 'y' :: rest => removeCountySuffix rest
  | c :: cs => c :: removeCountySuffix cs
  | [] => []

/-- `normalize_county_name` itself. -/
def normalize_county_name (county : String) : String :=
  if county = "" then "" else
  let name := pyStrip (removeCountySuffix county.toList)
  if name = [] then "" else
  let name := List.intercalate [' '] (pySplitWs name)
  let name := pyTitle name
  let name := fixPrefixCap 'M' 'c' none name
  String.mk name

/-- The party lookup table of `normalize_party_code`
(`process_openelections.py` lines 231-249). -/
def partyMapping : List (String × String) :=
  [ ("Dem", "DEM"), ("Democratic", "DEM"),
    ("Rep", "REP"), ("Republican", "REP"),
    ("Grn", "GRN"), ("Green", "GRN"), ("Green Party", "GRN"),
    ("Lib", "LIB"), ("Libertarian", "LIB"),
    ("Const", "CNST"), ("Constitution", "CNST"), ("Constitution Party", "CNST"),
    ("Ref", "REF"), ("Reform", "REF"),
    ("Forward", "FWD"), ("Forward Party", "FWD"),
    ("Keystone", "KEY") ]

/-- `normalize_party_code` from `process_openelections.py`
(lines 224-250): table lookup, unknown parties pass through
uppercased. -/
def normalize_party_code (party : String) : String :=
  if party = "" then "" else
  let p := String.mk (pyStrip party.toList)
  if p = "" then "" else
  (partyMapping.lookup p).getD (String.mk (p.toList.map Char.toUpper))

/-- The presidential-nominee table of `get_president_name`
(`process_openelections.py` lines 252-263). -/
def presidentMap : List (ℤ × List (String × String)) :=
  [ (2000, [("DEM", "Al Gore"), ("REP", "George W. Bush")]),
    (2004, [("DEM", "John F. Kerry"), ("REP", "George W. Bush")]),
    (2008, [("DEM", "Barack Obama"), ("REP", "John McCain")]),
    (2012, [("DEM", "Barack Obama"), ("REP", "Mitt Romney")]),
    (2016, [("DEM", "Hillary Clinton"), ("REP", "Donald J. Trump")]),
    (2020, [("DEM", "Joe Biden"), ("REP", "Donald J. Trump")]),
    (2024, [("DEM", "Kamala Harris"), ("REP", "Donald J. Trump")]) ]

/-- `get_president_name`: full nominee name for year and party, `""`
when absent. -/
def get_president_name (year : ℤ) (party_code : String) : String :=
  match presidentMap.lookup year with
  | none => ""
  | some m => (m.lookup party_code).getD ""

example : normalize_candidate_name "donald j trump" "President" = "Donald J. Trump" := by
  decide

example : normalize_candidate_name "Sandra Smith" "President" = "S." := by
  decide

example : normalize_county_name "McKEAN County" = "McKean" := by
  decide

example : normalize_county_name "  philadelphia  " = "Philadelphia" := by
  decide

example : normalize_party_code "Democratic" = "DEM" := by
  decide

/-! ## The county aggregation loop of `process_openelections.py`

`load_election_data` (lines 918-1000) processes the raw rows of one
office and year: a pre-pass builds `candidate_party_map` for rows
missing party labels, then a `defaultdict` keyed by the raw county
string accumulates vote buckets, and a final pass adds the margin
fields when the two-party total is positive.  A row's `county` and
`votes` are `Option`s: `none` models a `NaN` cell (for `votes`, also
a string that fails `int(float(.))`). -/

/-- One raw vote row (county, party, votes, candidate) as consumed by
the loop at lines 935-977. -/
structure Row where
  county : Option String
  party : String
  votes : Option ℤ
  candidate : String

/-- The per-county accumulator (the `defaultdict` default of
lines 929-933); `all_parties` is the inner dict. -/
structure CountyAgg where
  DEM : ℤ
  REP : ℤ
  other : ℤ
  total : ℤ
  dem_candidate : String
  rep_candidate : String
  all_parties : String → Option ℤ

/-- The `defaultdict` default value. -/
def emptyAgg : CountyAgg :=
  ⟨0, 0, 0, 0, "", "", fun _ => none⟩

/-- `candidate_party_map` (lines 919-926): first party label seen for
each lowercased normalized candidate name. -/
def build_candidate_party_map (race : String) (rows : List Row) :
    List (String × String) :=
  rows.foldl
    (fun m r =>
      let party := normalize_party_code r.party
      if party ≠ "" then
        let key := String.mk ((normalize_candidate_name r.candidate race).toList.map Char.toLower)
        if key ≠ "" ∧ (m.lookup key).isNone then m ++ [(key, party)] else m
      else m)
    []

/-- The effective party of a row (lines 937-942): the normalized
party code, falling back to `candidate_party_map` when it is blank
and the row names a candidate. -/
def effParty (race : String) (cmap : List (String × String)) (r : Row) : String :=
  let party := normalize_party_code r.party
  if party = "" ∧ r.candidate ≠ "" then
    ((cmap.lookup (String.mk ((normalize_candidate_name r.candidate race).toList.map Char.toLower))).getD party)
  else party

/-- The candidate-name value stored for a major party row
(lines 960-973): the hardcoded presidential nominee when the race is
President, else the normalized name. -/
def storedCandidate (race : String) (year : ℤ) (code : String) (candidate : String) :
    String :=
  if race = "President" then
    let mapped := get_president_name year code
    if mapped ≠ "" then mapped else normalize_candidate_name candidate race
  else normalize_candidate_name candidate race

/-- One iteration of the row loop (lines 935-977), updating the map
from raw county name to accumulator. -/
def aggStep (race : String) (year : ℤ) (cmap : List (String × String))
    (m : String → CountyAgg) (r : Row) : String → CountyAgg :=
  match r.county, r.votes with
  | some county, some votes =>
      let party := effParty race cmap r
      fun c =>
        if c = county then
          let d := m county
          let d :=
            if party ≠ "" then
              { d with all_parties := fun p => if p = party then some votes else d.all_parties p }
            else d
          let d :=
            if party = "DEM" then
              { d with
                DEM := d.DEM + votes
                dem_candidate :=
                  if r.candidate ≠ "" then storedCandidate race year "DEM" r.candidate
                  else d.dem_candidate }
            else if party = "REP" then
              { d with
                REP := d.REP + votes
                rep_candidate :=
                  if r.candidate ≠ "" then storedCandidate race year "REP" r.candidate
                  else d.rep_candidate }
            else
              { d with other := d.other + votes }
          { d with total := d.total + votes }
        else m c
  | _, _ => m

/-- The whole grouping loop for one office and year. -/
def aggregateRows (race : String) (year : ℤ) (rows : List Row) :
    String → CountyAgg :=
  rows.foldl (aggStep race year (build_candidate_party_map race rows))
    (fun _ => emptyAgg)

/-- Python `round` to the nearest integer, halves to even (used for
the 2-decimal rounding of the percentage fields; the pipeline's float
values are modelled as exact rationals). -/
def roundHalfEven (q : ℚ) : ℤ :=
  let n := ⌊q⌋
  let f := q - n
  if f < 1/2 then n
  else if 1/2 < f then n + 1
  else if 2 ∣ n then n else n + 1

/-- Python `round(x, 2)`. -/
def round2 (q : ℚ) : ℚ :=
  (roundHalfEven (q * 100) : ℚ) / 100

/-- The accumulator after the margin pass (lines 979-1000): the
fields of the `if two_party_total > 0` block are present only in that
branch, hence `Option`s. -/
structure CountyAggM where
  base : CountyAgg
  dem_pct : Option ℚ
  rep_pct : Option ℚ
  other_votes : Option ℤ
  two_party_total : Option ℤ
  margin : Option ℤ
  margin_pct : Option ℚ
  winner : Option String
  competitiveness : Option Bucket

/-- The margin pass for one county (lines 980-1000). -/
def compute_margins (d : CountyAgg) : CountyAggM :=
  let dem := d.DEM
  let rep := d.REP
  let total := d.total
  let other := d.other
  let two_party_total := dem + rep
  if two_party_total > 0 then
    let dem_pct : ℚ := ((dem : ℚ) / (total : ℚ)) * 100
    let rep_pct : ℚ := ((rep : ℚ) / (total : ℚ)) * 100
    let margin := dem - rep
    let margin_pct : ℚ := ((margin : ℚ) / (two_party_total : ℚ)) * 100
    { base := d
      dem_pct := some (round2 dem_pct)
      rep_pct := some (round2 rep_pct)
      other_votes := some other
      two_party_total := some two_party_total
      margin := some margin
      margin_pct := some (round2 margin_pct)
      winner := some (if margin > 0 then "DEM" else "REP")
      competitiveness := some (get_competitiveness margin_pct) }
  else
    { base := d, dem_pct := none, rep_pct := none, other_votes := none,
      two_party_total := none, margin := none, margin_pct := none,
      winner := none, competitiveness := none }

/-- One output record of `create_output_json` (lines 1085-1101);
`data.get(key, default)` on the optional margin fields becomes
`Option.getD`, and `competitiveness`'s `{}` default is `none`. -/
structure Entry where
  county : String
  dem_candidate : String
  rep_candidate : String
  dem_votes : ℤ
  rep_votes : ℤ
  other_votes : ℤ
  total_votes : ℤ
  two_party_total : ℤ
  margin : ℤ
  margin_pct : ℚ
  winner : String
  competitiveness : Option Bucket
  all_parties : String → Option ℤ

/-- The record built by `create_output_json` for one county
(lines 1085-1101). -/
def output_entry (county : String) (d : CountyAggM) : Entry :=
  { county := normalize_county_name county
    dem_candidate := d.base.dem_candidate
    rep_candidate := d.base.rep_candidate
    dem_votes := d.base.DEM
    rep_votes := d.base.REP
    other_votes := d.other_votes.getD 0
    total_votes := d.base.total
    two_party_total := d.two_party_total.getD (d.base.DEM + d.base.REP)
    margin := d.margin.getD 0
    margin_pct := d.margin_pct.getD 0
    winner := d.winner.getD "TIE"
    competitiveness := d.competitiveness
    all_parties := d.base.all_parties }

example :
    (output_entry "Cameron"
      (compute_margins
        (aggregateRows "U.S. Senate" 2024
          [⟨some "Cameron", "GRN", some 50, ""⟩] "Cameron"))).total_votes = 50 := by
  decide

/-- A raw row set whose single county has only third-party votes. -/
def greenOnlyRows : List Row :=
  [⟨some "Cameron", "GRN", some 50, ""⟩]

/-- The output record the pipeline produces for that county. -/
def greenOnlyEntry : Entry :=
  output_entry "Cameron"
    (compute_margins (aggregateRows "U.S. Senate" 2024 greenOnlyRows "Cameron"))

/-- C8: the invariant `total_votes == dem_votes + rep_votes +
other_votes` fails on the pipeline's own output: for a county whose
rows are all third-party, the margin pass never sets the
`other_votes` key (it is set only inside the
`if two_party_total > 0` block), so `create_output_json` falls back
to `0` while `total_votes` still counts the third-party ballots. -/
theorem total_votes_invariant_violation :
    greenOnlyEntry.total_votes = 50 ∧
    greenOnlyEntry.dem_votes = 0 ∧
    greenOnlyEntry.rep_votes = 0 ∧
    greenOnlyEntry.other_votes = 0 ∧
    greenOnlyEntry.total_votes ≠
      greenOnlyEntry.dem_votes + greenOnlyEntry.rep_votes + greenOnlyEntry.other_votes := by
  decide

/-- C9: when the two-party total is positive, the `winner` field of
an output record is `"DEM"` or `"REP"` decided by `margin > 0` — an
exact two-party tie gets `"REP"` — and `"TIE"` is exactly the default
taken when the two-party total is zero (given the vote buckets are
nonnegative, as sums of vote counts are). -/
theorem winner_never_tie_on_equal_votes (county : String) (d : CountyAgg)
    (hdem : 0 ≤ d.DEM) (hrep : 0 ≤ d.REP) :
    (d.DEM = d.REP → 0 < d.DEM →
      (output_entry county (compute_margins d)).winner = "REP") ∧
    ((output_entry county (compute_margins d)).winner = "TIE" ↔
      d.DEM + d.REP = 0) := by
  unfold output_entry compute_margins
  by_cases h : d.DEM + d.REP > 0
  · rw [if_pos h]
    dsimp only [Option.getD_some]
    constructor
    · intro heq _
      rw [if_neg (by omega : ¬ d.DEM - d.REP > 0)]
    · constructor
      · intro hw
        by_cases hm : d.DEM - d.REP > 0
        · rw [if_pos hm] at hw
          exact absurd hw (by decide)
        · rw [if_neg hm] at hw
          exact absurd hw (by decide)
      · intro h0
        exfalso
        omega
  · rw [if_neg h]
    dsimp only [Option.getD_none]
    constructor
    · intro _ hpos
      exfalso
      omega
    · exact ⟨fun _ => by omega, fun _ => rfl⟩

/-- Witness for `winner_never_tie_on_equal_votes`: a 2-2 county is
reported `"REP"`, not `"TIE"`. -/
theorem winner_never_tie_witness :
    (output_entry "Adams"
      (compute_margins ⟨2, 2, 0, 4, "", "", fun _ => none⟩)).winner = "REP" ∧
    (output_entry "Adams"
      (compute_margins ⟨2, 2, 0, 4, "", "", fun _ => none⟩)).winner ≠ "TIE" :=
  ⟨(winner_never_tie_on_equal_votes "Adams" ⟨2, 2, 0, 4, "", "", fun _ => none⟩
      (by decide) (by decide)).1 rfl (by decide),
   fun hw =>
     absurd ((winner_never_tie_on_equal_votes "Adams" ⟨2, 2, 0, 4, "", "", fun _ => none⟩
      (by decide) (by decide)).2.mp hw) (by decide)⟩

/-! ## Row-level contribution specifications for the aggregation loop -/

/-- The votes a row contributes to the `party` bucket of `county`:
its vote count when the row is valid, names that county, and its
effective party is `party`; else 0. -/
def rowVoteFor (race : String) (cmap : List (String × String))
    (county party : String) (r : Row) : ℤ :=
  match r.county, r.votes with
  | some c, some v => if c = county ∧ effParty race cmap r = party then v else 0
  | _, _ => 0

/-- The votes a row contributes to the `other` bucket of `county`. -/
def otherVoteFor (race : String) (cmap : List (String × String))
    (county : String) (r : Row) : ℤ :=
  match r.county, r.votes with
  | some c, some v =>
      if c = county ∧ effParty race cmap r ≠ "DEM" ∧ effParty race cmap r ≠ "REP"
      then v else 0
  | _, _ => 0

/-- The votes a row contributes to the running total of `county`. -/
def totalVoteFor (county : String) (r : Row) : ℤ :=
  match r.county, r.votes with
  | some c, some v => if c = county then v else 0
  | _, _ => 0

/-- The `all_parties[party] = votes` write a row performs for
`county`/`party`, if any. -/
def rowSets (race : String) (cmap : List (String × String))
    (county party : String) (r : Row) : Option ℤ :=
  match r.county, r.votes with
  | some c, some v => if c = county ∧ effParty race cmap r = party then some v else none
  | _, _ => none

/-- The vote value of the LAST row of `rows` that writes
`all_parties[party]` for `county` (later rows override earlier
ones). -/
def lastVote (race : String) (cmap : List (String × String))
    (county party : String) : List Row → Option ℤ
  | [] => none
  | r :: rs => (lastVote race cmap county party rs).or (rowSets race cmap county party r)

lemma aggStep_DEM (race : String) (year : ℤ) (cmap : List (String × String))
    (m : String → CountyAgg) (r : Row) (county : String) :
    (aggStep race year cmap m r county).DEM
      = (m county).DEM + rowVoteFor race cmap county "DEM" r := by
  unfold aggStep rowVoteFor
  rcases r.county with _ | c
  · simp
  rcases r.votes with _ | v
  · simp
  dsimp only
  by_cases hcc : county = c
  · subst hcc
    rw [if_pos rfl]
    by_cases hp : effParty race cmap r = "DEM" <;>
      by_cases hq : effParty race cmap r = "REP" <;>
      simp_all <;> split_ifs <;> simp_all
  · rw [if_neg hcc, if_neg (fun hh => hcc hh.1.symm)]
    simp

lemma aggStep_REP (race : String) (year : ℤ) (cmap : List (String × String))
    (m : String → CountyAgg) (r : Row) (county : String) :
    (aggStep race year cmap m r county).REP
      = (m county).REP + rowVoteFor race cmap county "REP" r := by
  unfold aggStep rowVoteFor
  rcases r.county with _ | c
  · simp
  rcases r.votes with _ | v
  · simp
  dsimp only
  by_cases hcc : county = c
  · subst hcc
    rw [if_pos rfl]
    by_cases hp : effParty race cmap r = "DEM" <;>
      by_cases hq : effParty race cmap r = "REP" <;>
      simp_all <;> split_ifs <;> simp_all
  · rw [if_neg hcc, if_neg (fun hh => hcc hh.1.symm)]
    simp

lemma aggStep_other (race : String) (year : ℤ) (cmap : List (String × String))
    (m : String → CountyAgg) (r : Row) (county : String) :
    (aggStep race year cmap m r county).other
      = (m county).other + otherVoteFor race cmap county r := by
  unfold aggStep otherVoteFor
  rcases r.county with _ | c
  · simp
  rcases r.votes with _ | v
  · simp
  dsimp only
  by_cases hcc : county = c
  · subst hcc
    rw [if_pos rfl]
    by_cases hp : effParty race cmap r = "DEM" <;>
      by_cases hq : effParty race cmap r = "REP" <;>
      simp_all <;> split_ifs <;> simp_all
  · rw [if_neg hcc, if_neg (fun hh => hcc hh.1.symm)]
    simp

lemma aggStep_total (race : String) (year : ℤ) (cmap : List (String × String))
    (m : String → CountyAgg) (r : Row) (county : String) :
    (aggStep race year cmap m r county).total
      = (m county).total + totalVoteFor county r := by
  unfold aggStep totalVoteFor
  rcases r.county with _ | c
  · simp
  rcases r.votes with _ | v
  · simp
  dsimp only
  by_cases hcc : county = c
  · subst hcc
    rw [if_pos rfl]
    by_cases hp : effParty race cmap r = "DEM" <;>
      by_cases hq : effParty race cmap r = "REP" <;>
      simp_all <;> split_ifs <;> simp_all
  · rw [if_neg hcc, if_neg (fun hh => hcc hh.symm)]
    simp

lemma aggStep_all_parties (race : String) (year : ℤ) (cmap : List (String × String))
    (m : String → CountyAgg) (r : Row) (county party : String) (hp : party ≠ "") :
    (aggStep race year cmap m r county).all_parties party
      = (rowSets race cmap county party r).or ((m county).all_parties party) := by
  unfold aggStep rowSets
  rcases r.county with _ | c
  · simp
  rcases r.votes with _ | v
  · simp
  dsimp only
  by_cases hcc : county = c
  · subst hcc
    rw [if_pos rfl]
    by_cases he : effParty race cmap r = party
    · rw [if_pos (show county = county ∧ effParty race cmap r = party from ⟨rfl, he⟩)]
      have hne : effParty race cmap r ≠ "" := fun h0 => hp (he.symm.trans h0)
      by_cases hd : effParty race cmap r = "DEM" <;>
        by_cases hr : effParty race cmap r = "REP" <;>
        simp_all [Option.or]
    · rw [if_neg (show ¬(county = county ∧ effParty race cmap r = party) from fun hh => he hh.2)]
      by_cases hne : effParty race cmap r = ""
      · by_cases hd : effParty race cmap r = "DEM" <;>
          by_cases hr : effParty race cmap r = "REP" <;>
          simp_all [Option.or]
      · have hps : party ≠ effParty race cmap r := fun h0 => he h0.symm
        by_cases hd : effParty race cmap r = "DEM" <;>
          by_cases hr : effParty race cmap r = "REP" <;>
          simp_all [Option.or]
  · rw [if_neg hcc, if_neg (fun hh => hcc hh.1.symm)]
    simp

lemma aggFold_DEM (race : String) (year : ℤ) (cmap : List (String × String))
    (county : String) (rows : List Row) :
    ∀ m : String → CountyAgg,
      (List.foldl (aggStep race year cmap) m rows county).DEM
        = (m county).DEM + (rows.map (rowVoteFor race cmap county "DEM")).sum := by
  induction rows with
  | nil => intro m; simp
  | cons r rs ih =>
      intro m
      rw [List.foldl_cons, ih, aggStep_DEM, List.map_cons, List.sum_cons]
      ring

lemma aggFold_REP (race : String) (year : ℤ) (cmap : List (String × String))
    (county : String) (rows : List Row) :
    ∀ m : String → CountyAgg,
      (List.foldl (aggStep race year cmap) m rows county).REP
        = (m county).REP + (rows.map (rowVoteFor race cmap county "REP")).sum := by
  induction rows with
  | nil => intro m; simp
  | cons r rs ih =>
      intro m
      rw [List.foldl_cons, ih, aggStep_REP, List.map_cons, List.sum_cons]
      ring

lemma aggFold_other (race : String) (year : ℤ) (cmap : List (String × String))
    (county : String) (rows : List Row) :
    ∀ m : String → CountyAgg,
      (List.foldl (aggStep race year cmap) m rows county).other
        = (m county).other + (rows.map (otherVoteFor race cmap county)).sum := by
  induction rows with
  | nil => intro m; simp
  | cons r rs ih =>
      intro m
      rw [List.foldl_cons, ih, aggStep_other, List.map_cons, List.sum_cons]
      ring

lemma aggFold_total (race : String) (year : ℤ) (cmap : List (String × String))
    (county : String) (rows : List Row) :
    ∀ m : String → CountyAgg,
      (List.foldl (aggStep race year cmap) m rows county).total
        = (m county).total + (rows.map (totalVoteFor county)).sum := by
  induction rows with
  | nil => intro m; simp
  | cons r rs ih =>
      intro m
      rw [List.foldl_cons, ih, aggStep_total, List.map_cons, List.sum_cons]
      ring

lemma aggFold_all_parties (race : String) (year : ℤ) (cmap : List (String × String))
    (county party : String) (hp : party ≠ "") (rows : List Row) :
    ∀ m : String → CountyAgg,
      (List.foldl (aggStep race year cmap) m rows county).all_parties party
        = (lastVote race cmap county party rows).or ((m county).all_parties party) := by
  induction rows with
  | nil => intro m; simp [lastVote]
  | cons r rs ih =>
      intro m
      rw [List.foldl_cons, ih, aggStep_all_parties race year cmap m r county party hp,
        lastVote]
      exact Option.or_assoc.symm

/-- C7 amended: for every raw row sequence, the aggregator SUMS the
`dem_votes`, `rep_votes`, `other_votes` and `total` buckets over all
matching rows of a county (repeated rows for the same county and
party are summed, not overwritten), but the `all_parties` mapping is
assigned, not accumulated: it records the vote value of the LAST row
seen for each county and party, not the sum. -/
theorem aggregation_sums_buckets_overwrites_all_parties
    (race : String) (year : ℤ) (rows : List Row) (county party : String)
    (hp : party ≠ "") :
    (aggregateRows race year rows county).DEM
      = (rows.map (rowVoteFor race (build_candidate_party_map race rows) county "DEM")).sum ∧
    (aggregateRows race year rows county).REP
      = (rows.map (rowVoteFor race (build_candidate_party_map race rows) county "REP")).sum ∧
    (aggregateRows race year rows county).other
      = (rows.map (otherVoteFor race (build_candidate_party_map race rows) county)).sum ∧
    (aggregateRows race year rows county).total
      = (rows.map (totalVoteFor county)).sum ∧
    (aggregateRows race year rows county).all_parties party
      = lastVote race (build_candidate_party_map race rows) county party rows := by
  unfold aggregateRows
  refine ⟨?_, ?_, ?_, ?_, ?_⟩
  · rw [aggFold_DEM]
    simp [emptyAgg]
  · rw [aggFold_REP]
    simp [emptyAgg]
  · rw [aggFold_other]
    simp [emptyAgg]
  · rw [aggFold_total]
    simp [emptyAgg]
  · rw [aggFold_all_parties race year (build_candidate_party_map race rows) county party hp]
    simp [emptyAgg]

/-- Two rows for the same county and party. -/
def demTwiceRows : List Row :=
  [⟨some "Adams", "Dem", some 100, ""⟩, ⟨some "Adams", "Dem", some 50, ""⟩]

/-- C7 counterexample: with two Democratic rows of 100 and 50 votes
for the same county, `dem_votes` is the sum 150 but `all_parties`
records only the last row's 50 — the claim that `all_parties` equals
the per-party sum is false. -/
theorem all_parties_overwrite_counterexample :
    (aggregateRows "U.S. Senate" 2022 demTwiceRows "Adams").DEM = 150 ∧
    (aggregateRows "U.S. Senate" 2022 demTwiceRows "Adams").all_parties "DEM" = some 50 ∧
    (aggregateRows "U.S. Senate" 2022 demTwiceRows "Adams").all_parties "DEM" ≠ some 150 := by
  decide

/-- Witness for `aggregation_sums_buckets_overwrites_all_parties` at
the two-row example. -/
theorem aggregation_sums_witness :
    (aggregateRows "U.S. Senate" 2022 demTwiceRows "Adams").DEM
      = (demTwiceRows.map (rowVoteFor "U.S. Senate"
          (build_candidate_party_map "U.S. Senate" demTwiceRows) "Adams" "DEM")).sum ∧
    (aggregateRows "U.S. Senate" 2022 demTwiceRows "Adams").all_parties "DEM"
      = lastVote "U.S. Senate" (build_candidate_party_map "U.S. Senate" demTwiceRows)
          "Adams" "DEM" demTwiceRows :=
  ⟨(aggregation_sums_buckets_overwrites_all_parties "U.S. Senate" 2022 demTwiceRows
      "Adams" "DEM" (by decide)).1,
   (aggregation_sums_buckets_overwrites_all_parties "U.S. Senate" 2022 demTwiceRows
      "Adams" "DEM" (by decide)).2.2.2.2⟩

/-! ## The statewide aggregation of `generate_detailed_findings.py` -/

/-- The record `analyze_statewide_trends` appends for one contest
(lines 127-141). -/
structure Statewide where
  dem_candidate : String
  rep_candidate : String
  dem_votes : ℤ
  rep_votes : ℤ
  other_votes : ℤ
  total_votes : ℤ
  dem_pct : ℚ
  rep_pct : ℚ
  margin : ℤ
  margin_pct : ℚ
  winner : String

/-- The per-contest body of `analyze_statewide_trends`
(`generate_detailed_findings.py` lines 108-141): sum the county
entries' `dem_votes`/`rep_votes`/`other_votes`, keep the last
candidate strings, and re-derive margin, percentages and winner from
the statewide sums. -/
def analyze_statewide_trends (results : List (String × Entry)) : Statewide :=
  let dem_total : ℤ := results.foldl (fun acc kv => acc + kv.2.dem_votes) 0
  let rep_total : ℤ := results.foldl (fun acc kv => acc + kv.2.rep_votes) 0
  let other_total : ℤ := results.foldl (fun acc kv => acc + kv.2.other_votes) 0
  let dem_candidate := results.foldl (fun _ kv => kv.2.dem_candidate) ""
  let rep_candidate := results.foldl (fun _ kv => kv.2.rep_candidate) ""
  let total : ℤ := dem_total + rep_total + other_total
  let two_party_total : ℤ := dem_total + rep_total
  let margin : ℤ := dem_total - rep_total
  let margin_pct : ℚ :=
    if two_party_total > 0 then ((margin : ℚ) / (two_party_total : ℚ)) * 100 else 0
  { dem_candidate := dem_candidate
    rep_candidate := rep_candidate
    dem_votes := dem_total
    rep_votes := rep_total
    other_votes := other_total
    total_votes := total
    dem_pct := if two_party_total > 0 then ((dem_total : ℚ) / (two_party_total : ℚ)) * 100 else 0
    rep_pct := if two_party_total > 0 then ((rep_total : ℚ) / (two_party_total : ℚ)) * 100 else 0
    margin := margin
    margin_pct := margin_pct
    winner := if margin > 0 then "DEM" else "REP" }

/-- County A of the two-county scenario: Dem 6000, Rep 4000. -/
def entryA : Entry :=
  { county := "Adams", dem_candidate := "", rep_candidate := ""
    dem_votes := 6000, rep_votes := 4000, other_votes := 0
    total_votes := 10000, two_party_total := 10000
    margin := 2000, margin_pct := 20, winner := "DEM"
    competitiveness := some (get_competitiveness 20)
    all_parties := fun _ => none }

/-- County B of the two-county scenario: Dem 3000, Rep 7000. -/
def entryB : Entry :=
  { county := "Berks", dem_candidate := "", rep_candidate := ""
    dem_votes := 3000, rep_votes := 7000, other_votes := 0
    total_votes := 10000, two_party_total := 10000
    margin := -4000, margin_pct := -40, winner := "REP"
    competitiveness := some (get_competitiveness (-40))
    all_parties := fun _ => none }

/-- The contest results block of the scenario. -/
def scenarioResults : List (String × Entry) :=
  [("Adams", entryA), ("Berks", entryB)]

lemma scenario_margin_pct :
    (analyze_statewide_trends scenarioResults).margin_pct = -10 := by
  norm_num [analyze_statewide_trends, scenarioResults, entryA, entryB]

/-- C3 counterexample: in the two-county scenario (A: 6000/4000,
B: 3000/7000) the statewide margin_pct is exactly -10.0, and the
competitiveness category of -10.0 is "Safe Republican", not the
claimed "Likely Republican" (-10.0 is a bucket boundary and falls
outward). -/
theorem statewide_scenario_counterexample :
    (analyze_statewide_trends scenarioResults).margin_pct = -10 ∧
    (get_competitiveness (analyze_statewide_trends scenarioResults).margin_pct).category
      ≠ "Likely Republican" := by
  refine ⟨scenario_margin_pct, ?_⟩
  rw [scenario_margin_pct]
  norm_num [get_competitiveness, abs_of_nonneg, abs_of_nonpos]
  decide

/-- C3 amended: the two-county scenario yields statewide dem=9000,
rep=11000, margin=-2000, margin_pct=-10.0 (re-derived from the
statewide sums), winner "REP"; the competitiveness of that statewide
margin_pct is "Safe Republican". -/
theorem statewide_two_county_scenario :
    (analyze_statewide_trends scenarioResults).dem_votes = 9000 ∧
    (analyze_statewide_trends scenarioResults).rep_votes = 11000 ∧
    (analyze_statewide_trends scenarioResults).margin = -2000 ∧
    (analyze_statewide_trends scenarioResults).margin_pct = -10 ∧
    (analyze_statewide_trends scenarioResults).winner = "REP" ∧
    (get_competitiveness (analyze_statewide_trends scenarioResults).margin_pct).category
      = "Safe Republican" := by
  refine ⟨by decide, by decide, by decide, scenario_margin_pct, by decide, ?_⟩
  rw [scenario_margin_pct]
  norm_num [get_competitiveness, abs_of_nonneg, abs_of_nonpos]

/-! ## The canonical-dataset merger of `merge_official_2022_data.py`

`merge_data` (lines 153-212) loads the canonical JSON, ensures the
year is in `metadata.years`, CLEARS the whole `results_by_year["2022"]`
block, and repopulates it from the aggregated CSV batch.  We model
the in-memory document transformation (file I/O and prints are out of
scope): JSON objects become functions from keys to `Option` values,
which also gives the claims' key-order-insensitive equality. -/

/-- The per-office/county accumulator of `aggregate_csv_data`
(lines 94-101). -/
structure CountyAgg22 where
  dem_votes : ℤ
  rep_votes : ℤ
  other_votes : ℤ
  dem_candidate : Option String
  rep_candidate : Option String

/-- One result entry of `format_result_entry` (lines 130-150); its
`all_parties` dict has exactly the keys `DEM`/`REP`/`OTHER`, modelled
as three fields. -/
structure Entry22 where
  county : String
  contest : String
  year : String
  dem_candidate : Option String
  rep_candidate : Option String
  dem_votes : ℤ
  rep_votes : ℤ
  other_votes : ℤ
  total_votes : ℤ
  two_party_total : ℤ
  margin : ℤ
  margin_pct : ℚ
  winner : String
  competitiveness : Bucket
  ap_DEM : ℤ
  ap_REP : ℤ
  ap_OTHER : ℤ

/-- The office display-name table of `get_full_office_name`
(lines 63-73). -/
def officeNames : List (String × String) :=
  [ ("president", "President of the United States"),
    ("us_senate", "United States Senator"),
    ("attorney_general", "Attorney General"),
    ("auditor_general", "Auditor General"),
    ("state_treasurer", "State Treasurer"),
    ("governor", "Governor") ]

/-- `get_full_office_name`: table lookup, else `office.title()`. -/
def get_full_office_name (office : String) : String :=
  (officeNames.lookup office).getD (String.mk (pyTitle office.toList))

/-- `format_result_entry` from `merge_official_2022_data.py`
(lines 115-150): `None` when the two-party total is zero. -/
def format_result_entry_2022 (county_name office : String) (data : CountyAgg22) :
    Option Entry22 :=
  let dem_votes := data.dem_votes
  let rep_votes := data.rep_votes
  let other_votes := data.other_votes
  let total_votes := dem_votes + rep_votes + other_votes
  let two_party_total := dem_votes + rep_votes
  if two_party_total = 0 then none
  else
    let margin := dem_votes - rep_votes
    let margin_pct : ℚ :=
      if two_party_total > 0 then ((margin : ℚ) / (two_party_total : ℚ)) * 100 else 0
    some
      { county := county_name
        contest := get_full_office_name office
        year := "2022"
        dem_candidate := data.dem_candidate
        rep_candidate := data.rep_candidate
        dem_votes := dem_votes
        rep_votes := rep_votes
        other_votes := other_votes
        total_votes := total_votes
        two_party_total := two_party_total
        margin := margin
        margin_pct := round2 margin_pct
        winner :=
          if dem_votes > rep_votes then "DEM"
          else if rep_votes > dem_votes then "REP" else "TIE"
        competitiveness := get_competitiveness_2022 margin_pct
        ap_DEM := dem_votes
        ap_REP := rep_votes
        ap_OTHER := other_votes }

/-- A contest block: `{"contest_name": ..., "results": {...}}`. -/
structure Contest22 where
  contest_name : String
  results : String → Option Entry22

/-- A JSON-object update: set key `k` of the object `f` to `v`. -/
def updateFn {α : Type} (f : String → Option α) (k : String) (v : Option α) :
    String → Option α :=
  fun x => if x = k then v else f x

/-- The canonical dataset document: `metadata.years` and
`results_by_year[year][office][contest_key]`. -/
structure Document where
  metadata_years : List ℤ
  results_by_year : String → Option (String → Option (String → Option Contest22))

/-- The contest entry built for one office of the batch
(lines 187-198): county entries that format to `None` are skipped. -/
def build_contest_2022 (office : String) (counties : List (String × CountyAgg22)) :
    Contest22 :=
  { contest_name := get_full_office_name office
    results :=
      counties.foldl
        (fun res kv =>
          match format_result_entry_2022 kv.1 office kv.2 with
          | some e => updateFn res kv.1 (some e)
          | none => res)
        (fun _ => none) }

/-- The fresh `"2022"` year block built from the batch
(lines 176-198): starts empty (the old block was cleared) and gains
one `office -> {office_2022: contest}` entry per batch office. -/
def build_year_2022 (batch : List (String × List (String × CountyAgg22))) :
    String → Option (String → Option Contest22) :=
  batch.foldl
    (fun yd ob =>
      let prev := (yd ob.1).getD (fun _ => none)
      updateFn yd ob.1
        (some (updateFn prev (ob.1 ++ "_2022") (some (build_contest_2022 ob.1 ob.2)))))
    (fun _ => none)

/-- `merge_data` from `merge_official_2022_data.py` (lines 169-198,
the in-memory transformation): add 2022 to `metadata.years` (sorting
when it was absent), then replace the whole `"2022"` block of
`results_by_year` with the block built from the batch. -/
def merge_data (doc : Document) (batch : List (String × List (String × CountyAgg22))) :
    Document :=
  { metadata_years :=
      if (2022 : ℤ) ∈ doc.metadata_years then doc.metadata_years
      else List.mergeSort (doc.metadata_years ++ [2022]) (fun a b => a ≤ b)
    results_by_year := updateFn doc.results_by_year "2022" (some (build_year_2022 batch)) }

/-- The office block stored for `year`/`office` in a document. -/
def getOffice (d : Document) (year office : String) :
    Option (String → Option Contest22) :=
  match d.results_by_year year with
  | none => none
  | some yd => yd office

/-- A governor entry present in the canonical document before a
merge. -/
def priorEntry : Entry22 :=
  { county := "Adams", contest := "Governor", year := "2022"
    dem_candidate := none, rep_candidate := none
    dem_votes := 6000, rep_votes := 4000, other_votes := 0
    total_votes := 10000, two_party_total := 10000, margin := 2000
    margin_pct := 20, winner := "DEM"
    competitiveness := get_competitiveness_2022 20
    ap_DEM := 6000, ap_REP := 4000, ap_OTHER := 0 }

/-- A canonical document whose 2022 governor block is populated. -/
def priorDoc : Document :=
  { metadata_years := [2022]
    results_by_year :=
      updateFn (fun _ => none) "2022"
        (some (updateFn (fun _ => none) "governor"
          (some (updateFn (fun _ => none) "governor_2022"
            (some { contest_name := "Governor"
                    results := updateFn (fun _ => none) "Adams" (some priorEntry) }))))) }

/-- C2 counterexample: the merger clears the whole year block before
repopulating it, so a populated governor contest block is silently
deleted by merging an empty batch. -/
theorem merge_empty_batch_deletes_counterexample :
    (getOffice priorDoc "2022" "governor").isSome = true ∧
    getOffice (merge_data priorDoc []) "2022" "governor" = none := by
  constructor
  · rfl
  · rfl

/-- C2 amended: the merger replaces the ENTIRE `"2022"` block with
the block built from the batch alone — contests of that year absent
from the batch (in particular all of them, when the batch is empty)
are deleted rather than preserved — while the blocks of every other
year are left unchanged. -/
theorem merge_overwrites_only_batch_year (doc : Document)
    (batch : List (String × List (String × CountyAgg22))) :
    (merge_data doc batch).results_by_year "2022" = some (build_year_2022 batch) ∧
    ∀ y : String, y ≠ "2022" → (merge_data doc batch).results_by_year y
      = doc.results_by_year y := by
  unfold merge_data updateFn
  dsimp only
  constructor
  · rw [if_pos rfl]
  · intro y hy
    rw [if_neg hy]

/-- Witness for `merge_overwrites_only_batch_year` at the concrete
prior document, empty batch and year `"2000"`. -/
theorem merge_overwrites_witness :
    (merge_data priorDoc []).results_by_year "2022" = some (build_year_2022 []) ∧
    (merge_data priorDoc []).results_by_year "2000" = priorDoc.results_by_year "2000" :=
  ⟨(merge_overwrites_only_batch_year priorDoc []).1,
   (merge_overwrites_only_batch_year priorDoc []).2 "2000" (by decide)⟩

/-- C6: merging is idempotent: re-running `merge_data` with the
identical batch yields the same document (functions from keys model
JSON objects, so this equality is key-order-insensitive); in
particular this holds when the first merge targeted an empty
document. -/
theorem merge_idempotent (doc : Document)
    (batch : List (String × List (String × CountyAgg22))) :
    merge_data (merge_data doc batch) batch = merge_data doc batch := by
  have hmem : (2022 : ℤ) ∈
      (if (2022 : ℤ) ∈ doc.metadata_years then doc.metadata_years
       else List.mergeSort (doc.metadata_years ++ [2022]) (fun a b => a ≤ b)) := by
    split_ifs with h
    · exact h
    · exact List.mem_mergeSort.mpr (by simp)
  unfold merge_data
  congr 1
  · dsimp only
    rw [if_pos hmem]
  · funext x
    unfold updateFn
    by_cases hx : x = "2022" <;> simp [hx]

/-- C10: for office President or Governor, the running-mate split of
`normalize_candidate_name` cuts at the first occurrence of `/`, `&`,
or the letter sequence `and` with no word-boundary requirement, so
`and` inside `Sandra` truncates the name there: the result for
`("Sandra Smith", "President")` is `"S."`; explicit separators also
split, and a non-executive office is not split at all. -/
theorem normalize_candidate_name_splits_inside_words :
    normalize_candidate_name "Sandra Smith" "President" = "S." ∧
    normalize_candidate_name "Smith / Jones" "President" = "Smith" ∧
    normalize_candidate_name "Smith and Jones" "Governor" = "Smith" ∧
    normalize_candidate_name "Sandra Smith" "U.S. Senate" = "Sandra Smith" := by
  decide

end PARealign
